import Mathlib

/-!
Verification of the BFPO address scraper (src/main.py) against its
natural-language specification.

The program's pure normalization core is embedded shallowly:
Python strings are Lean `String`s (the string primitives the program uses
are re-implemented below with Python's semantics on the ASCII data this
program handles), Python `None`-able values are `Option`s, dict-shaped
address records are a `structure` in which an absent dict key is `none`,
caught exceptions are `Except`/`Option` results, and the two external
collaborators (the pycountry ISO 3166-1 catalog and the fetched
page/spreadsheet) are explicit parameters.
-/

namespace BFPO

/-! ### Python string primitives (as used by src/main.py, ASCII semantics) -/

/-- Python `str.upper` (ASCII). -/
def pyUpper (s : String) : String := ⟨s.data.map Char.toUpper⟩

/-- Python `str.lower` (ASCII). -/
def pyLower (s : String) : String := ⟨s.data.map Char.toLower⟩

/-- Python `str.startswith pat`: `pat`'s characters are a prefix of `s`'s. -/
def pyStartsWith (s pat : String) : Bool := pat.data.isPrefixOf s.data

/-- Python `str.strip`: drop whitespace from both ends. -/
def pyStrip (s : String) : String :=
  ⟨((s.data.dropWhile Char.isWhitespace).reverse.dropWhile Char.isWhitespace).reverse⟩

/-- Helper for Python `pat in s` substring containment. -/
def containsAux (pat : List Char) : List Char → Bool
  | [] => pat.isPrefixOf []
  | c :: cs => pat.isPrefixOf (c :: cs) || containsAux pat cs

/-- Python `pat in s` (substring containment). -/
def pyContains (s pat : String) : Bool := containsAux pat.data s.data

/-- Helper for Python `str.title`: the Bool records whether the previous
character was alphabetic (ASCII approximation of "cased"). -/
def pyTitleAux : Bool → List Char → List Char
  | _, [] => []
  | prev, c :: cs =>
    (if c.isAlpha then (if prev then c.toLower else c.toUpper) else c) ::
      pyTitleAux c.isAlpha cs

/-- Python `str.title` (ASCII). -/
def pyTitle (s : String) : String := ⟨pyTitleAux false s.data⟩

/-- Helper for Python `str.replace`: replace every occurrence of the
non-empty pattern `p :: ps` by `rep`, scanning left to right.  The `Nat`
fuel starts at the input length and always dominates the remaining length,
so recursing on its structural predecessor never exhausts it early. -/
def replaceAux (p : Char) (ps rep : List Char) : Nat → List Char → List Char
  | 0, l => l
  | _ + 1, [] => []
  | fuel + 1, c :: cs =>
    if (p :: ps).isPrefixOf (c :: cs) then
      rep ++ replaceAux p ps rep fuel (cs.drop ps.length)
    else
      c :: replaceAux p ps rep fuel cs

/-- Python `s.replace(pat, rep)` for a non-empty `pat` (the program only
replaces the pattern "BFPO "). -/
def pyReplace (s pat rep : String) : String :=
  match pat.data with
  | [] => s
  | p :: ps => ⟨replaceAux p ps rep.data s.data.length s.data⟩

/-- Python `str.isdigit` on the ASCII data this program handles:
non-empty and all decimal digits. -/
def isDigitString (s : String) : Bool := !s.data.isEmpty && s.data.all Char.isDigit

/-- Python `int(s)` for a digit string. -/
def digitsToNat (s : String) : Nat := s.data.foldl (fun n c => n * 10 + (c.toNat - 48)) 0

/-! ### CountryCodeResolver (src/main.py lines 30-119) -/

/-- The `SPECIAL_CASES` override table of `CountryCodeResolver`,
in source order. -/
def SPECIAL_CASES : List (String × String) :=
  [("Holland", "NL"),
   ("USA", "US"),
   ("Turkey", "TR"),
   ("Falklands", "FK"),
   ("Ascension", "AC"),
   ("British Indian Ocean Territory", "IO"),
   ("Africa", "AF")]

/-- Modelled from the spec: the external pycountry ISO 3166-1 catalog
(section 1 treats it as an external collaborator; it is not code of this
repository).  Each field abstracts one lookup the program performs,
returning the alpha-2 code(s) found; `pycountry`'s `Database.get` returns
its `None` default when no entry matches (it does not raise), which is why
the fields are `Option`-valued total functions. -/
structure Catalog where
  getByName : String → Option String
  searchFuzzy : String → List String
  getByCommonName : String → Option String
  getByAlpha2 : String → Option String

/-- Exact lookup in the `SPECIAL_CASES` dict (Python `in` / `[]` on a dict
with string keys). -/
def lookupOverride (name : String) : Option String :=
  (SPECIAL_CASES.find? (fun p => p.1 == name)).map (fun p => p.2)

/-- The final step of `get_country_code`: retry the upper/lower/title-case
variations against the `common_name` catalog, first hit wins. -/
def commonNameRetry (cat : Catalog) (country_name : String) : Option String :=
  match cat.getByCommonName (pyUpper country_name) with
  | some c => some c
  | none =>
    match cat.getByCommonName (pyLower country_name) with
    | some c => some c
    | none => cat.getByCommonName (pyTitle country_name)

/-- `CountryCodeResolver.get_country_code` (src/main.py lines 44-95):
empty guard, then override table, then exact name lookup, then fuzzy
search (first candidate), then common-name case variations; `none` when
everything fails (the warning print is I/O and not modelled). -/
def get_country_code (cat : Catalog) (country_name : String) : Option String :=
  if country_name = "" then none
  else
    match lookupOverride country_name with
    | some c => some c
    | none =>
      match cat.getByName country_name with
      | some c => some c
      | none =>
        match cat.searchFuzzy country_name with
        | c :: _ => some c
        | [] => commonNameRetry cat country_name

/-- `CountryCodeResolver.validate_country_code` (src/main.py lines 97-119).
The source wraps the final `pycountry.countries.get(alpha_2=code.upper())`
in `try/except (KeyError, AttributeError)`, but `Database.get` returns its
`None` default instead of raising for an unknown code, so the except path
is dead, the lookup result is discarded, and the function returns `True`
for every 2-character string. -/
def validate_country_code (cat : Catalog) (code : String) : Bool :=
  if code = "" || code.length != 2 then false
  else if (SPECIAL_CASES.map (fun p => p.2)).contains code then true
  else
    let _ := cat.getByAlpha2 (pyUpper code)
    true

/-! ### AddressRecord and the normalizer `_add_address` -/

/-- One BFPO address record (a Python dict in the source); an optional
field is `none` exactly when the dict key is absent.  `Type'` models the
source's `Type` key (`Type` is a Lean keyword). -/
structure Address where
  BfpoNum : String
  BoxNum : Option String
  Loc : String
  PstCd : Option String
  Ctry : Option String
  CtryCd : Option String
  Type' : String
deriving DecidableEq

/-- Python truthiness on an optional string: `none` and the empty string
are falsy, so the field is kept only when provided and non-empty. -/
def optNonEmpty : Option String → Option String
  | some s => if s = "" then none else some s
  | none => none

/-- The BfpoNum prefixing step of `_add_address` (src/main.py lines 174-176):
`if not bfpo_num.upper().startswith('BFPO'): bfpo_num = f'BFPO {bfpo_num}'`. -/
def prefixBfpo (bfpo_num : String) : String :=
  if pyStartsWith (pyUpper bfpo_num) "BFPO" then bfpo_num else "BFPO " ++ bfpo_num

/-- `BFPOScraperSimple._add_address` (src/main.py lines 170-196), returning
the record it appends to `self.addresses`.  `BoxNum`/`PstCd`/`Ctry` are set
only for truthy (non-`None`, non-empty) inputs; when `Ctry` is set, `CtryCd`
is set only when the resolver succeeds with a truthy code. -/
def _add_address (cat : Catalog) (bfpo_num location : String)
    (postcode country : Option String) (bfpo_type : String)
    (box_num : Option String) : Address :=
  Address.mk
    (prefixBfpo bfpo_num)
    (optNonEmpty box_num)
    location
    (optNonEmpty postcode)
    (optNonEmpty country)
    (match optNonEmpty country with
     | some c => optNonEmpty (get_country_code cat c)
     | none => none)
    bfpo_type

/-! ### Section parsers (src/main.py lines 198-398)

Section 1 of the spec treats HTML fetching and tag navigation as external
collaborators delivering "already-split row data (ordered sequences of text
cells) per logical section"; each `_parse_*` method below is embedded as a
function from those rows to the records it appends.  A row is handled only
when it has the minimum cell count the source checks (`len(row) >= n`);
shorter rows are skipped. -/

/-- `_parse_germany_locations` row loop (src/main.py lines 213-215). -/
def _parse_germany_locations (cat : Catalog) (rows : List (List String)) : List Address :=
  rows.filterMap (fun row =>
    match row with
    | c0 :: c1 :: c2 :: _ =>
      some (_add_address cat c1 c0 (some c2) (some "Germany") "static" none)
    | _ => none)

/-- `_parse_uk_locations` row loop (src/main.py lines 232-234). -/
def _parse_uk_locations (cat : Catalog) (rows : List (List String)) : List Address :=
  rows.filterMap (fun row =>
    match row with
    | c0 :: c1 :: c2 :: _ =>
      some (_add_address cat c1 c0 (some c2) (some "United Kingdom") "static" none)
    | _ => none)

/-- `_parse_europe_locations` row loop (src/main.py lines 251-253). -/
def _parse_europe_locations (cat : Catalog) (rows : List (List String)) : List Address :=
  rows.filterMap (fun row =>
    match row with
    | c0 :: c1 :: c2 :: c3 :: _ =>
      some (_add_address cat c1 c0 (some c2) (some c3) "static" none)
    | _ => none)

/-- `_parse_world_locations` row loop (src/main.py lines 270-272). -/
def _parse_world_locations (cat : Catalog) (rows : List (List String)) : List Address :=
  rows.filterMap (fun row =>
    match row with
    | c0 :: c1 :: c2 :: c3 :: _ =>
      some (_add_address cat c1 c0 (some c2) (some c3) "static" none)
    | _ => none)

/-- `_parse_ships` row loop (src/main.py lines 289-291). -/
def _parse_ships (cat : Catalog) (rows : List (List String)) : List Address :=
  rows.filterMap (fun row =>
    match row with
    | c0 :: c1 :: c2 :: _ =>
      some (_add_address cat c1 c0 (some c2) none "ship" none)
    | _ => none)

/-- The country-inference chain of `_parse_naval_parties`
(src/main.py lines 316-325): first matching substring wins. -/
def navalCountry (location : String) : Option String :=
  if pyContains location "Diego Garcia" then some "British Indian Ocean Territory"
  else if pyContains location "Ottawa" then some "Canada"
  else if pyContains location "Singapore" then some "Singapore"
  else if pyContains location "Den Helder" then some "Netherlands"
  else if pyContains location "Falklands" then some "Falklands"
  else none

/-- `_parse_naval_parties` row loop (src/main.py lines 308-327). -/
def _parse_naval_parties (cat : Catalog) (rows : List (List String)) : List Address :=
  rows.filterMap (fun row =>
    match row with
    | c0 :: c1 :: c2 :: _ =>
      some (_add_address cat c1 c0 (some c2) (navalCountry c0) "navalparty" none)
    | _ => none)

/-- `_parse_operations` row loop (src/main.py lines 344-346). -/
def _parse_operations (cat : Catalog) (rows : List (List String)) : List Address :=
  rows.filterMap (fun row =>
    match row with
    | c0 :: c1 :: c2 :: _ =>
      some (_add_address cat c1 c0 (some c2) none "operation" none)
    | _ => none)

/-- `_parse_exercises` row loop (src/main.py lines 363-365). -/
def _parse_exercises (cat : Catalog) (rows : List (List String)) : List Address :=
  rows.filterMap (fun row =>
    match row with
    | c0 :: c1 :: c2 :: _ =>
      some (_add_address cat c1 c0 (some c2) none "exercise" none)
    | _ => none)

/-- The `ISOLATED_DETACHMENT_POSTCODE` constant (src/main.py line 383). -/
def ISOLATED_DETACHMENT_POSTCODE : String := "BF1 0AX"

/-- `_parse_isolated_detachments` row loop (src/main.py lines 385-398):
every row with at least two cells is parented on BFPO 105 in Germany with
the fixed postcode, first cell as location and second cell as box number. -/
def _parse_isolated_detachments (cat : Catalog) (rows : List (List String)) : List Address :=
  rows.filterMap (fun row =>
    match row with
    | c0 :: c1 :: _ =>
      some (_add_address cat "105" c0 (some ISOLATED_DETACHMENT_POSTCODE)
        (some "Germany") "detachment" (some c1))
    | _ => none)

/-! ### FCDO spreadsheet parsing (src/main.py lines 421-589) -/

/-- The `country_patterns` table of `_infer_country_from_location`
(src/main.py lines 503-581), in source (insertion) order. -/
def country_patterns : List (String × String) :=
  [("ankara", "Turkey"),
   ("paris", "France"),
   ("berlin", "Germany"),
   ("madrid", "Spain"),
   ("rome", "Italy"),
   ("athens", "Greece"),
   ("vienna", "Austria"),
   ("brussels", "Belgium"),
   ("amsterdam", "Netherlands"),
   ("dublin", "Ireland"),
   ("lisbon", "Portugal"),
   ("copenhagen", "Denmark"),
   ("stockholm", "Sweden"),
   ("oslo", "Norway"),
   ("helsinki", "Finland"),
   ("warsaw", "Poland"),
   ("prague", "Czech Republic"),
   ("budapest", "Hungary"),
   ("bucharest", "Romania"),
   ("sofia", "Bulgaria"),
   ("moscow", "Russia"),
   ("ottawa", "Canada"),
   ("washington", "USA"),
   ("new york", "USA"),
   ("los angeles", "USA"),
   ("san francisco", "USA"),
   ("chicago", "USA"),
   ("boston", "USA"),
   ("atlanta", "USA"),
   ("mexico city", "Mexico"),
   ("brasilia", "Brazil"),
   ("buenos aires", "Argentina"),
   ("santiago", "Chile"),
   ("lima", "Peru"),
   ("bogota", "Colombia"),
   ("tokyo", "Japan"),
   ("beijing", "China"),
   ("shanghai", "China"),
   ("seoul", "South Korea"),
   ("delhi", "India"),
   ("mumbai", "India"),
   ("bangkok", "Thailand"),
   ("singapore", "Singapore"),
   ("jakarta", "Indonesia"),
   ("manila", "Philippines"),
   ("kuala lumpur", "Malaysia"),
   ("hanoi", "Vietnam"),
   ("islamabad", "Pakistan"),
   ("kabul", "Afghanistan"),
   ("tehran", "Iran"),
   ("riyadh", "Saudi Arabia"),
   ("dubai", "United Arab Emirates"),
   ("abu dhabi", "United Arab Emirates"),
   ("canberra", "Australia"),
   ("sydney", "Australia"),
   ("melbourne", "Australia"),
   ("wellington", "New Zealand"),
   ("auckland", "New Zealand"),
   ("cairo", "Egypt"),
   ("nairobi", "Kenya"),
   ("johannesburg", "South Africa"),
   ("pretoria", "South Africa"),
   ("lagos", "Nigeria"),
   ("abuja", "Nigeria"),
   ("addis ababa", "Ethiopia"),
   ("accra", "Ghana"),
   ("dar es salaam", "Tanzania"),
   ("kampala", "Uganda")]

/-- `_infer_country_from_location` (src/main.py lines 491-589): lowercase
the location, then the first pattern that occurs as a substring wins. -/
def _infer_country_from_location (location : String) : Option String :=
  (country_patterns.find? (fun p => pyContains (pyLower location) p.1)).map (fun p => p.2)

/-- One (Location, BFPO No, Postcode) cell triple of the FCDO grid, in the
row-major column-group iteration order of `parse_fcdo_ods`; the spreadsheet
column-group decoding itself is presentation-layer glue excluded by
section 1 of the spec, which assumes an in-memory grid. -/
def fcdoRow (cat : Catalog) (location bfpo_num postcode : String) : Option Address :=
  let location := pyStrip location
  let bfpo_num := pyStrip bfpo_num
  let postcode := pyStrip postcode
  if location = "nan" || location = "" || bfpo_num = "nan" || bfpo_num = "" then none
  else
    let postOpt := if postcode = "nan" || postcode = "" then none else some postcode
    some (_add_address cat bfpo_num location postOpt
      (_infer_country_from_location location) "fcdo" none)

/-- `parse_fcdo_ods` cell loop (src/main.py lines 458-483): each extracted
cell triple either yields one record or is skipped. -/
def parse_fcdo_ods (cat : Catalog) (cells : List (String × String × String)) : List Address :=
  cells.filterMap (fun t => fcdoRow cat t.1 t.2.1 t.2.2)

/-! ### Page scraping and the run (src/main.py lines 134-159, 679-721) -/

/-- Modelled from the spec and src/main.py lines 145-153: the fetched page
reduced to its nine logical sections; a section is `none` when its heading
(or the table after it) is not found, in which case the parser warns and
returns without adding records. -/
structure Soup where
  germany : Option (List (List String))
  uk : Option (List (List String))
  europe : Option (List (List String))
  world : Option (List (List String))
  ships : Option (List (List String))
  naval : Option (List (List String))
  operations : Option (List (List String))
  exercises : Option (List (List String))
  detachments : Option (List (List String))

/-- A `Soup` in which no section is found at all. -/
def emptySoup : Soup := Soup.mk none none none none none none none none none

/-- The record contribution of one optional section. -/
def sectionAddrs (parse : List (List String) → List Address) :
    Option (List (List String)) → List Address
  | some rows => parse rows
  | none => []

/-- `scrape_gov_uk_bfpo` (src/main.py lines 134-159) after a successful
fetch: the nine sections are parsed in order, a missing section
contributing nothing. -/
def scrape_gov_uk_bfpo (cat : Catalog) (soup : Soup) : List Address :=
  sectionAddrs (_parse_germany_locations cat) soup.germany ++
  sectionAddrs (_parse_uk_locations cat) soup.uk ++
  sectionAddrs (_parse_europe_locations cat) soup.europe ++
  sectionAddrs (_parse_world_locations cat) soup.world ++
  sectionAddrs (_parse_ships cat) soup.ships ++
  sectionAddrs (_parse_naval_parties cat) soup.naval ++
  sectionAddrs (_parse_operations cat) soup.operations ++
  sectionAddrs (_parse_exercises cat) soup.exercises ++
  sectionAddrs (_parse_isolated_detachments cat) soup.detachments

/-! ### Sorting and XML generation (src/main.py lines 591-643) -/

/-- `get_sort_key` (src/main.py lines 610-612): strip the "BFPO " prefix
(every occurrence, as `str.replace` does), trim, and parse the integer;
non-numeric remainders get the constant sentinel 999. -/
def get_sort_key (addr : Address) : Nat :=
  let bfpo_num := pyStrip (pyReplace addr.BfpoNum "BFPO " "")
  if isDigitString bfpo_num then digitsToNat bfpo_num else 999

/-- The comparison `self.addresses.sort(key=get_sort_key)` sorts by. -/
def addrLe (a b : Address) : Prop := get_sort_key a ≤ get_sort_key b

instance addrLeDecidable : DecidableRel addrLe := fun a b => Nat.decLe _ _

instance addrLeTotal : IsTotal Address addrLe := ⟨fun _ _ => Nat.le_total _ _⟩

instance addrLeTrans : IsTrans Address addrLe := ⟨fun _ _ _ => Nat.le_trans⟩

/-- `self.addresses.sort(key=get_sort_key)` (src/main.py line 614).
Python's `list.sort` is stable; a stable sort's output is determined by the
key order together with stability, so it is embedded as the (stable)
insertion sort by `get_sort_key`. -/
def sortAddresses (addrs : List Address) : List Address :=
  List.insertionSort addrLe addrs

/-- One node of the generated element tree: the header comment, or one
`BFFO_Address` element given by its ordered list of (tag, text) children. -/
inductive XNode where
  | comm : String → XNode
  | elem : String → List (String × String) → XNode
deriving DecidableEq

/-- The child elements written for one address (src/main.py lines 617-638),
in the source's fixed order, optional fields only when their key is
present (and, for `CtryCd`, additionally truthy). -/
def addrToElem (a : Address) : XNode :=
  XNode.elem "BFFO_Address"
    ([("BfpoNum", a.BfpoNum)] ++
     (match a.BoxNum with | some b => [("BoxNum", b)] | none => []) ++
     [("Loc", a.Loc)] ++
     (match a.PstCd with | some p => [("PstCd", p)] | none => []) ++
     (match a.Ctry with | some c => [("Ctry", c)] | none => []) ++
     (match a.CtryCd with
      | some k => if k = "" then [] else [("CtryCd", k)]
      | none => []) ++
     [("Type", a.Type')])

/-- `generate_xml` (src/main.py lines 591-643): the `Config` root's
children are the header comment followed by one `BFFO_Address` element per
address, in sorted order.  `today` stands for `datetime.now()`. -/
def generate_xml (today : String) (addrs : List Address) : List XNode :=
  XNode.comm ("\nBFPO Address Configuration\nGenerated from GOV.UK BFPO locations\nLast Updated: " ++
      today ++
      "\nCreated By: Affinis Ltd (Dominic Digby)\nSchema: bfpo_config.xsd\nCountry Codes: ISO 3166-1 alpha-2 (via pycountry)\n")
    :: (sortAddresses addrs).map addrToElem

/-- The environment of one run: the primary page fetch (`none` when the
request raises) and the FCDO grid (`none` when the spreadsheet is wholly
unavailable or unparseable; `parse_fcdo_ods` catches its own errors). -/
structure Env where
  page : Option Soup
  odsGrid : Option (List (String × String × String))

/-- `run` (src/main.py lines 679-721): a primary-source fetch failure
re-raises out of `scrape_gov_uk_bfpo` and aborts; everything else
proceeds, the spreadsheet contributing nothing when unavailable, and the
XML is generated. -/
def run (cat : Catalog) (today : String) (env : Env) : Except String (List XNode) :=
  match env.page with
  | none => Except.error "Error scraping GOV.UK"
  | some soup =>
    let govAddrs := scrape_gov_uk_bfpo cat soup
    let fcdoAddrs :=
      match env.odsGrid with
      | some cells => parse_fcdo_ods cat cells
      | none => []
    Except.ok (generate_xml today (govAddrs ++ fcdoAddrs))

/-- Whether a run completed successfully. -/
def exceptOk (e : Except String (List XNode)) : Bool :=
  match e with
  | Except.ok _ => true
  | Except.error _ => false

/-! ### Re-parsing the output (claim C9)

Modelled from the spec: no re-parser exists in src/ (section 1 excludes
presentation-layer XML serialization syntax, and section 8 only demands
that "serializing and re-parsing the output document must reproduce
exactly the same set of (BfpoNum, Loc, Type) triples in the same order").
Re-parsing is embedded as structural extraction from the element tree:
skip the comment, and read each `BFFO_Address` element's first `BfpoNum`,
`Loc` and `Type` child texts. -/

/-- The text of the first child with the given tag (empty when absent). -/
def findTag (children : List (String × String)) (tag : String) : String :=
  match children.find? (fun p => p.1 == tag) with
  | some p => p.2
  | none => ""

/-- The (BfpoNum, Loc, Type) triple read back from one element's children. -/
def reparseElem (children : List (String × String)) : String × String × String :=
  (findTag children "BfpoNum", findTag children "Loc", findTag children "Type")

/-- The triple read back from one node: comments are skipped, as is any
element that is not a `BFFO_Address`. -/
def nodeTriple : XNode → Option (String × String × String)
  | XNode.comm _ => none
  | XNode.elem tag children =>
    if tag = "BFFO_Address" then some (reparseElem children) else none

/-- Re-parse the generated document into its (BfpoNum, Loc, Type) triples. -/
def reparseTriples (doc : List XNode) : List (String × String × String) :=
  doc.filterMap nodeTriple

/-! ### A concrete catalog fragment for instantiation

Modelled from pycountry's ISO 3166-1 data: a fragment sufficient for the
concrete scenarios of the claims.  "ZZ" is not an assigned ISO 3166-1
alpha-2 code and is absent. -/

/-- A concrete `Catalog` holding the catalog facts the claims use. -/
def sampleCatalog : Catalog :=
  Catalog.mk
    (fun name =>
      if name = "Germany" then some "DE"
      else if name = "Canada" then some "CA"
      else if name = "United Kingdom" then some "GB"
      else if name = "Netherlands" then some "NL"
      else if name = "Singapore" then some "SG"
      else none)
    (fun _ => [])
    (fun _ => none)
    (fun code =>
      if code = "DE" then some "DE"
      else if code = "CA" then some "CA"
      else if code = "GB" then some "GB"
      else none)

/-! ## Helper lemmas -/

theorem pyStartsWith_upper_BFPO_append (s : String) :
    pyStartsWith (pyUpper ("BFPO " ++ s)) "BFPO" = true := by
  cases s with
  | mk l => rfl

theorem prefixBfpo_ne_empty (n : String) : prefixBfpo n ≠ "" := by
  unfold prefixBfpo
  split
  · rename_i h
    intro he
    subst he
    exact absurd h (by decide)
  · intro h
    have h2 : ("BFPO ").data ++ n.data = [] := by
      have h3 := congrArg String.data h
      rwa [String.data_append] at h3
    rcases List.append_eq_nil.mp h2 with ⟨h4, -⟩
    exact absurd h4 (by decide)

theorem prefixBfpo_startsWith (n : String) :
    pyStartsWith (pyUpper (prefixBfpo n)) "BFPO" = true := by
  unfold prefixBfpo
  split
  · rename_i h
    exact h
  · exact pyStartsWith_upper_BFPO_append n

theorem prefixBfpo_idem (n : String) : prefixBfpo (prefixBfpo n) = prefixBfpo n := by
  by_cases h : pyStartsWith (pyUpper n) "BFPO" = true
  · unfold prefixBfpo
    rw [if_pos h, if_pos h]
  · have h2 := pyStartsWith_upper_BFPO_append n
    unfold prefixBfpo
    rw [if_neg h, if_pos h2]

theorem optNonEmpty_ne_some_empty (o : Option String) : optNonEmpty o ≠ some "" := by
  cases o with
  | none => simp [optNonEmpty]
  | some s =>
    by_cases h : s = "" <;> simp [optNonEmpty, h]

theorem optNonEmpty_eq_some {o : Option String} {k : String} (h : optNonEmpty o = some k) :
    o = some k := by
  cases o with
  | none => exact absurd h (by simp [optNonEmpty])
  | some s =>
    by_cases hs : s = "" <;> simp [optNonEmpty, hs] at h <;> simp [h]

/-! ## Claim C1 (corrected) -/

/-- C1 (amended): for every normalizer input, the record's BfpoNum is the
input prefixed with exactly "BFPO " when the input does not already start
(case-insensitively) with "BFPO", and the input kept verbatim otherwise;
the result is non-empty, always case-insensitively starts with "BFPO",
and prefixing is idempotent, so "15" yields "BFPO 15" while the
already-prefixed "bfpo 15" is kept as "bfpo 15" (not double-prefixed, but
also not normalized to "BFPO 15"). -/
theorem bfpo_prefix_contract (cat : Catalog) (n loc : String) (p c : Option String)
    (ty : String) (b : Option String) :
    (_add_address cat n loc p c ty b).BfpoNum = prefixBfpo n ∧
    prefixBfpo n =
      (if pyStartsWith (pyUpper n) "BFPO" then n else "BFPO " ++ n) ∧
    prefixBfpo n ≠ "" ∧
    pyStartsWith (pyUpper (prefixBfpo n)) "BFPO" = true ∧
    prefixBfpo (prefixBfpo n) = prefixBfpo n ∧
    prefixBfpo "15" = "BFPO 15" ∧
    prefixBfpo "bfpo 15" = "bfpo 15" :=
  ⟨rfl, rfl, prefixBfpo_ne_empty n, prefixBfpo_startsWith n, prefixBfpo_idem n,
    by decide, by decide⟩

/-- Witness for C1 at a concrete input. -/
theorem bfpo_prefix_contract_witness :
    (_add_address sampleCatalog "15" "HQ" none none "static" none).BfpoNum = prefixBfpo "15" ∧
    prefixBfpo "15" ≠ "" :=
  ⟨(bfpo_prefix_contract sampleCatalog "15" "HQ" none none "static" none).1,
   (bfpo_prefix_contract sampleCatalog "15" "HQ" none none "static" none).2.2.1⟩

/-- C1 counterexample: the input "bfpo 15" yields BfpoNum "bfpo 15", not
the "BFPO 15" the claim promises, because the case-insensitive check keeps
an already-prefixed value verbatim without normalizing its case. -/
theorem bfpo_prefix_counterexample :
    (_add_address sampleCatalog "bfpo 15" "Somewhere" none none "static" none).BfpoNum =
      "bfpo 15" ∧
    (("bfpo 15" : String) == "BFPO 15") = false := by
  decide

/-! ## Claim C3 (code_bug) -/

/-- C3: `validate_country_code` returns True for the 2-letter code "ZZ"
even though "ZZ" is neither an override value nor an assigned ISO 3166-1
alpha-2 code (the catalog lookup returns none and its result is
discarded), contradicting the function's own documentation, because
pycountry's `get` returns None rather than raising the caught KeyError. -/
theorem validate_accepts_any_two_chars :
    validate_country_code sampleCatalog "ZZ" = true ∧
    ((SPECIAL_CASES.map (fun p => p.2)).contains "ZZ") = false ∧
    sampleCatalog.getByAlpha2 "ZZ" = none ∧
    validate_country_code sampleCatalog "Z" = false ∧
    validate_country_code sampleCatalog "ZZZ" = false := by
  decide

/-! ## Claim C8 (confirmed) -/

/-- C8: the single naval-parties row ["Ottawa", "005", "K1N 1A1"] infers
country "Canada" from the location text and produces exactly the record
BfpoNum "BFPO 005", Loc "Ottawa", PstCd "K1N 1A1", Ctry "Canada",
CtryCd "CA", Type "navalparty" (given that the ISO catalog resolves
"Canada" to "CA", as pycountry does). -/
theorem naval_ottawa_scenario (cat : Catalog)
    (h : cat.getByName "Canada" = some "CA") :
    _parse_naval_parties cat [["Ottawa", "005", "K1N 1A1"]] =
      [Address.mk "BFPO 005" none "Ottawa" (some "K1N 1A1") (some "Canada") (some "CA")
        "navalparty"] := by
  have h1 : get_country_code cat "Canada" =
      (match cat.getByName "Canada" with
       | some k => some k
       | none =>
         match cat.searchFuzzy "Canada" with
         | k :: _ => some k
         | [] => commonNameRetry cat "Canada") := rfl
  have hg : get_country_code cat "Canada" = some "CA" := by
    rw [h1, h]
  have h2 : _parse_naval_parties cat [["Ottawa", "005", "K1N 1A1"]] =
      [Address.mk "BFPO 005" none "Ottawa" (some "K1N 1A1") (some "Canada")
        (optNonEmpty (get_country_code cat "Canada")) "navalparty"] := rfl
  rw [h2, hg]
  rfl

/-- Witness for C8: the scenario evaluated in the concrete catalog. -/
theorem naval_ottawa_scenario_witness :
    _parse_naval_parties sampleCatalog [["Ottawa", "005", "K1N 1A1"]] =
      [Address.mk "BFPO 005" none "Ottawa" (some "K1N 1A1") (some "Canada") (some "CA")
        "navalparty"] :=
  naval_ottawa_scenario sampleCatalog rfl

/-! ## Claim C4 (confirmed) -/

/-- C4: `get_country_code` resolves with first-match-wins order: override
table, then exact ISO name, then fuzzy search (top candidate), then
upper/lower/title-case retry against the common-name catalog, returning
none (with a warning, not an exception — the function is total) when all
fail; "Holland" resolves to "NL" from the override table no matter what
the ISO catalog says, "Germany" resolves to "DE" by exact name lookup, and
"Not-A-Real-Country" (absent from every catalog) returns none. -/
theorem resolver_order_contract (cat : Catalog)
    (hG : cat.getByName "Germany" = some "DE")
    (hN1 : cat.getByName "Not-A-Real-Country" = none)
    (hN2 : cat.searchFuzzy "Not-A-Real-Country" = [])
    (hN3 : cat.getByCommonName "NOT-A-REAL-COUNTRY" = none)
    (hN4 : cat.getByCommonName "not-a-real-country" = none)
    (hN5 : cat.getByCommonName "Not-A-Real-Country" = none) :
    get_country_code cat "Holland" = some "NL" ∧
    get_country_code cat "Germany" = some "DE" ∧
    get_country_code cat "Not-A-Real-Country" = none ∧
    (∀ name v, lookupOverride name = some v → get_country_code cat name = some v) ∧
    (∀ name v, name ≠ "" → lookupOverride name = none → cat.getByName name = some v →
      get_country_code cat name = some v) ∧
    (∀ name v rest, name ≠ "" → lookupOverride name = none → cat.getByName name = none →
      cat.searchFuzzy name = v :: rest → get_country_code cat name = some v) ∧
    (∀ name, name ≠ "" → lookupOverride name = none → cat.getByName name = none →
      cat.searchFuzzy name = [] → get_country_code cat name = commonNameRetry cat name) := by
  refine ⟨rfl, ?_, ?_, ?_, ?_, ?_, ?_⟩
  · have h1 : get_country_code cat "Germany" =
        (match cat.getByName "Germany" with
         | some k => some k
         | none =>
           match cat.searchFuzzy "Germany" with
           | k :: _ => some k
           | [] => commonNameRetry cat "Germany") := rfl
    rw [h1, hG]
  · have h1 : get_country_code cat "Not-A-Real-Country" =
        (match cat.getByName "Not-A-Real-Country" with
         | some k => some k
         | none =>
           match cat.searchFuzzy "Not-A-Real-Country" with
           | k :: _ => some k
           | [] => commonNameRetry cat "Not-A-Real-Country") := rfl
    have h2 : commonNameRetry cat "Not-A-Real-Country" =
        (match cat.getByCommonName "NOT-A-REAL-COUNTRY" with
         | some k => some k
         | none =>
           match cat.getByCommonName "not-a-real-country" with
           | some k => some k
           | none => cat.getByCommonName "Not-A-Real-Country") := rfl
    rw [h1, hN1, hN2, h2, hN3, hN4, hN5]
  · intro name v hov
    have hne : name ≠ "" := by
      intro h
      rw [h, show lookupOverride "" = none from rfl] at hov
      exact Option.noConfusion hov
    unfold get_country_code
    rw [if_neg hne, hov]
  · intro name v hne hov hname
    unfold get_country_code
    rw [if_neg hne, hov, hname]
  · intro name v rest hne hov hname hfuzzy
    unfold get_country_code
    rw [if_neg hne, hov, hname, hfuzzy]
  · intro name hne hov hname hfuzzy
    unfold get_country_code
    rw [if_neg hne, hov, hname, hfuzzy]

/-- Witness for C4: the three resolver scenarios evaluated in the concrete
catalog fragment, whose exact-name table carries "Germany" and nothing for
"Not-A-Real-Country". -/
theorem resolver_order_contract_witness :
    get_country_code sampleCatalog "Holland" = some "NL" ∧
    get_country_code sampleCatalog "Germany" = some "DE" ∧
    get_country_code sampleCatalog "Not-A-Real-Country" = none :=
  ⟨(resolver_order_contract sampleCatalog rfl rfl rfl rfl rfl rfl).1,
   (resolver_order_contract sampleCatalog rfl rfl rfl rfl rfl rfl).2.1,
   (resolver_order_contract sampleCatalog rfl rfl rfl rfl rfl rfl).2.2.1⟩

/-! ## Claim C2 (corrected) -/

theorem filter_orderedInsert (k : Nat) (a : Address) (l : List Address) :
    (List.orderedInsert addrLe a l).filter (fun x => get_sort_key x == k) =
      if get_sort_key a == k then a :: l.filter (fun x => get_sort_key x == k)
      else l.filter (fun x => get_sort_key x == k) := by
  induction l with
  | nil =>
    by_cases hk : (get_sort_key a == k) = true <;>
      simp [List.orderedInsert, List.filter, hk]
  | cons b t ih =>
    by_cases hab : addrLe a b
    · rw [List.orderedInsert, if_pos hab]
      by_cases hk : (get_sort_key a == k) = true <;>
        simp [List.filter_cons, hk]
    · rw [List.orderedInsert, if_neg hab]
      have hlt : get_sort_key b < get_sort_key a := Nat.lt_of_not_le hab
      by_cases hak : (get_sort_key a == k) = true
      · have hbk : (get_sort_key b == k) = false := by
          have hka : get_sort_key a = k := by simpa using hak
          have : get_sort_key b ≠ k := by omega
          simpa using this
        simp [List.filter_cons, hbk, ih, hak]
      · simp [List.filter_cons, ih, hak]

theorem filter_sortAddresses (k : Nat) (l : List Address) :
    (sortAddresses l).filter (fun x => get_sort_key x == k) =
      l.filter (fun x => get_sort_key x == k) := by
  induction l with
  | nil => rfl
  | cons a t ih =>
    show (List.orderedInsert addrLe a (List.insertionSort addrLe t)).filter _ = _
    rw [filter_orderedInsert]
    by_cases hk : (get_sort_key a == k) = true <;>
      simp [List.filter_cons, hk, ih, sortAddresses] at *

/-- C2 (amended): the final serialization order is the stable ascending
sort by `get_sort_key`, which is the integer parsed from BfpoNum with
every "BFPO " occurrence stripped when that remainder is purely numeric,
and the constant sentinel 999 otherwise; hence non-numeric identifiers
come after all records with numeric value below 999 (but not after
numeric values of 999 or more), equal keys keep their relative insertion
order, and the spec's example sorts as 3, 22, 105, EXERCISE-A. -/
theorem sort_order_contract (l : List Address) :
    List.Sorted addrLe (sortAddresses l) ∧
    List.Perm (sortAddresses l) l ∧
    (∀ k : Nat, (sortAddresses l).filter (fun x => get_sort_key x == k) =
      l.filter (fun x => get_sort_key x == k)) ∧
    (∀ a : Address, isDigitString (pyStrip (pyReplace a.BfpoNum "BFPO " "")) = false →
      get_sort_key a = 999) ∧
    sortAddresses
      [Address.mk "BFPO 3" none "a" none none none "static",
       Address.mk "BFPO 105" none "b" none none none "static",
       Address.mk "BFPO 22" none "c" none none none "static",
       Address.mk "BFPO EXERCISE-A" none "d" none none none "exercise"] =
      [Address.mk "BFPO 3" none "a" none none none "static",
       Address.mk "BFPO 22" none "c" none none none "static",
       Address.mk "BFPO 105" none "b" none none none "static",
       Address.mk "BFPO EXERCISE-A" none "d" none none none "exercise"] := by
  refine ⟨List.sorted_insertionSort addrLe l, List.perm_insertionSort addrLe l,
    fun k => filter_sortAddresses k l, ?_, by decide⟩
  intro a h
  unfold get_sort_key
  rw [if_neg]
  simp [h]

/-- Witness for C2 at concrete inputs. -/
theorem sort_order_contract_witness :
    List.Sorted addrLe
      (sortAddresses
        [Address.mk "BFPO 9" none "x" none none none "static",
         Address.mk "BFPO 2" none "y" none none none "static"]) ∧
    get_sort_key (Address.mk "BFPO EXERCISE-B" none "z" none none none "exercise") = 999 :=
  ⟨(sort_order_contract
      [Address.mk "BFPO 9" none "x" none none none "static",
       Address.mk "BFPO 2" none "y" none none none "static"]).1,
   (sort_order_contract []).2.2.2.1
     (Address.mk "BFPO EXERCISE-B" none "z" none none none "exercise") (by decide)⟩

/-- C2 counterexample: a record with the numeric identifier 1000 sorts
after the non-numeric "BFPO EXERCISE-A" (whose sentinel key is 999), so a
non-numeric record is not placed after all records with numeric
identifiers. -/
theorem sort_order_counterexample :
    sortAddresses
      [Address.mk "BFPO 1000" none "Op Alpha" none none none "static",
       Address.mk "BFPO EXERCISE-A" none "Ex Alpha" none none none "exercise"] =
      [Address.mk "BFPO EXERCISE-A" none "Ex Alpha" none none none "exercise",
       Address.mk "BFPO 1000" none "Op Alpha" none none none "static"] ∧
    isDigitString (pyStrip (pyReplace "BFPO 1000" "BFPO " "")) = true ∧
    isDigitString (pyStrip (pyReplace "BFPO EXERCISE-A" "BFPO " "")) = false := by
  decide

/-! ## Claim C5 (corrected) -/

/-- C5 (amended): the run aborts exactly when the primary GOV.UK fetch
fails; a fetched page is otherwise always processed to completion — in
particular a page in which no sections are found at all yields an empty
contribution (with warnings) but still completes, as does total
unavailability of the optional spreadsheet source, and a malformed row is
skipped at its own boundary. -/
theorem run_abort_contract (cat : Catalog) (today : String) (env : Env) :
    exceptOk (run cat today env) = env.page.isSome ∧
    (∀ soup, run cat today (Env.mk (some soup) none) =
      Except.ok (generate_xml today (scrape_gov_uk_bfpo cat soup))) ∧
    (∀ row : List String, row.length < 3 → _parse_naval_parties cat [row] = []) ∧
    scrape_gov_uk_bfpo cat emptySoup = [] := by
  refine ⟨?_, ?_, ?_, rfl⟩
  · cases hp : env.page with
    | none =>
      cases env with
      | mk page grid => cases hp; rfl
    | some soup =>
      cases env with
      | mk page grid => cases hp; rfl
  · intro soup
    simp [run]
  · intro row h
    rcases row with _ | ⟨c0, _ | ⟨c1, _ | ⟨c2, t⟩⟩⟩
    · rfl
    · rfl
    · rfl
    · simp at h
      omega

/-- Witness for C5: a failed fetch aborts; a one-cell row is skipped. -/
theorem run_abort_contract_witness :
    exceptOk (run sampleCatalog "2026-02-03" (Env.mk none none)) =
      (Env.mk (none : Option Soup) none).page.isSome ∧
    _parse_naval_parties sampleCatalog [["HMS Example"]] = [] :=
  ⟨(run_abort_contract sampleCatalog "2026-02-03" (Env.mk none none)).1,
   (run_abort_contract sampleCatalog "2026-02-03" (Env.mk none none)).2.2.1
     ["HMS Example"] (by decide)⟩

/-- C5 counterexample: a successfully fetched page in which not a single
section is found ("unparseable as a whole") does not abort the run — the
run still completes successfully with an empty document, contrary to the
claim that this case is fatal. -/
theorem run_no_sections_counterexample :
    scrape_gov_uk_bfpo sampleCatalog emptySoup = [] ∧
    run sampleCatalog "2026-02-03" (Env.mk (some emptySoup) none) =
      Except.ok (generate_xml "2026-02-03" []) ∧
    exceptOk (run sampleCatalog "2026-02-03" (Env.mk (some emptySoup) none)) = true :=
  ⟨rfl, rfl, rfl⟩

/-! ## Claim C6 (confirmed) -/

/-- C6: in every record the normalizer builds, each optional field
(postcode, country, box number) is present exactly when it was provided
and non-empty — no empty-string field is ever recorded; CtryCd is present
only when Ctry is present and resolution succeeded on it; and a record
built with no postcode and no country has none of PstCd, Ctry, CtryCd but
always has BfpoNum (non-empty), Loc and Type. -/
theorem field_presence_contract (cat : Catalog) (n loc : String) (p c : Option String)
    (ty : String) (b : Option String) (r : Address)
    (hr : r = _add_address cat n loc p c ty b) :
    r.Loc = loc ∧ r.Type' = ty ∧ r.BfpoNum ≠ "" ∧
    r.BoxNum ≠ some "" ∧ r.PstCd ≠ some "" ∧ r.Ctry ≠ some "" ∧ r.CtryCd ≠ some "" ∧
    (p = none → r.PstCd = none) ∧
    (p = some "" → r.PstCd = none) ∧
    (∀ s, s ≠ "" → p = some s → r.PstCd = some s) ∧
    (b = none → r.BoxNum = none) ∧
    (b = some "" → r.BoxNum = none) ∧
    (∀ s, s ≠ "" → b = some s → r.BoxNum = some s) ∧
    (c = none → r.Ctry = none ∧ r.CtryCd = none) ∧
    (c = some "" → r.Ctry = none ∧ r.CtryCd = none) ∧
    (∀ s, s ≠ "" → c = some s → r.Ctry = some s) ∧
    (∀ k, r.CtryCd = some k → ∃ s, r.Ctry = some s ∧ get_country_code cat s = some k) ∧
    (p = none → c = none →
      r.PstCd = none ∧ r.Ctry = none ∧ r.CtryCd = none ∧ r.BfpoNum ≠ "" ∧
        r.Loc = loc ∧ r.Type' = ty) := by
  subst hr
  refine ⟨rfl, rfl, prefixBfpo_ne_empty n, optNonEmpty_ne_some_empty b,
    optNonEmpty_ne_some_empty p, optNonEmpty_ne_some_empty c, ?_, ?_, ?_, ?_, ?_, ?_, ?_,
    ?_, ?_, ?_, ?_, ?_⟩
  · show (match optNonEmpty c with
      | some s => optNonEmpty (get_country_code cat s)
      | none => none) ≠ some ""
    cases hoc : optNonEmpty c with
    | none => simp
    | some s => simpa using optNonEmpty_ne_some_empty (get_country_code cat s)
  · intro hp
    subst hp
    rfl
  · intro hp
    subst hp
    rfl
  · intro s hs hp
    subst hp
    show optNonEmpty (some s) = some s
    simp [optNonEmpty, hs]
  · intro hb
    subst hb
    rfl
  · intro hb
    subst hb
    rfl
  · intro s hs hb
    subst hb
    show optNonEmpty (some s) = some s
    simp [optNonEmpty, hs]
  · intro hc
    subst hc
    exact ⟨rfl, rfl⟩
  · intro hc
    subst hc
    exact ⟨rfl, rfl⟩
  · intro s hs hc
    subst hc
    show optNonEmpty (some s) = some s
    simp [optNonEmpty, hs]
  · intro k hk
    have hk2 : (match optNonEmpty c with
        | some s => optNonEmpty (get_country_code cat s)
        | none => none) = some k := hk
    cases hoc : optNonEmpty c with
    | none =>
      rw [hoc] at hk2
      exact Option.noConfusion hk2
    | some s =>
      rw [hoc] at hk2
      exact ⟨s, hoc, optNonEmpty_eq_some hk2⟩
  · intro hp hc
    subst hp
    subst hc
    exact ⟨rfl, rfl, rfl, prefixBfpo_ne_empty n, rfl, rfl⟩

/-- Witness for C6 evaluated at concrete records. -/
theorem field_presence_contract_witness :
    (_add_address sampleCatalog "15" "HQ Base" (some "AB1 2CD") (some "Germany") "static"
      none).PstCd = some "AB1 2CD" ∧
    (_add_address sampleCatalog "15" "HQ Base" (some "AB1 2CD") (some "Germany") "static"
      none).Ctry = some "Germany" ∧
    (_add_address sampleCatalog "9" "Depot" none none "ship" none).PstCd = none ∧
    (_add_address sampleCatalog "9" "Depot" none none "ship" none).Ctry = none ∧
    (_add_address sampleCatalog "9" "Depot" none none "ship" none).CtryCd = none := by
  have h1 := field_presence_contract sampleCatalog "15" "HQ Base" (some "AB1 2CD")
    (some "Germany") "static" none _ rfl
  have h2 := field_presence_contract sampleCatalog "9" "Depot" none none "ship" none _ rfl
  refine ⟨h1.2.2.2.2.2.2.2.2.2.1 "AB1 2CD" (by decide) rfl, ?_, ?_, ?_, ?_⟩
  · exact h1.2.2.2.2.2.2.2.2.2.2.2.2.2.2.2.1 "Germany" (by decide) rfl
  · exact (h2.2.2.2.2.2.2.2.2.2.2.2.2.2.2.2.2.2 rfl rfl).1
  · exact (h2.2.2.2.2.2.2.2.2.2.2.2.2.2.2.2.2.2 rfl rfl).2.1
  · exact (h2.2.2.2.2.2.2.2.2.2.2.2.2.2.2.2.2.2 rfl rfl).2.2.1

/-! ## Claim C7 (corrected) -/

theorem box_none_germany {cat : Catalog} {rows : List (List String)} {a : Address}
    (h : a ∈ _parse_germany_locations cat rows) :
    a.BoxNum = none ∧ a.Type' = "static" := by
  simp only [_parse_germany_locations, List.mem_filterMap] at h
  obtain ⟨row, -, hrow⟩ := h
  rcases row with _ | ⟨c0, _ | ⟨c1, _ | ⟨c2, rest⟩⟩⟩ <;> simp at hrow
  rw [← hrow]
  exact ⟨rfl, rfl⟩

theorem box_none_uk {cat : Catalog} {rows : List (List String)} {a : Address}
    (h : a ∈ _parse_uk_locations cat rows) :
    a.BoxNum = none ∧ a.Type' = "static" := by
  simp only [_parse_uk_locations, List.mem_filterMap] at h
  obtain ⟨row, -, hrow⟩ := h
  rcases row with _ | ⟨c0, _ | ⟨c1, _ | ⟨c2, rest⟩⟩⟩ <;> simp at hrow
  rw [← hrow]
  exact ⟨rfl, rfl⟩

theorem box_none_europe {cat : Catalog} {rows : List (List String)} {a : Address}
    (h : a ∈ _parse_europe_locations cat rows) :
    a.BoxNum = none ∧ a.Type' = "static" := by
  simp only [_parse_europe_locations, List.mem_filterMap] at h
  obtain ⟨row, -, hrow⟩ := h
  rcases row with _ | ⟨c0, _ | ⟨c1, _ | ⟨c2, _ | ⟨c3, rest⟩⟩⟩⟩ <;> simp at hrow
  rw [← hrow]
  exact ⟨rfl, rfl⟩

theorem box_none_world {cat : Catalog} {rows : List (List String)} {a : Address}
    (h : a ∈ _parse_world_locations cat rows) :
    a.BoxNum = none ∧ a.Type' = "static" := by
  simp only [_parse_world_locations, List.mem_filterMap] at h
  obtain ⟨row, -, hrow⟩ := h
  rcases row with _ | ⟨c0, _ | ⟨c1, _ | ⟨c2, _ | ⟨c3, rest⟩⟩⟩⟩ <;> simp at hrow
  rw [← hrow]
  exact ⟨rfl, rfl⟩

theorem box_none_ships {cat : Catalog} {rows : List (List String)} {a : Address}
    (h : a ∈ _parse_ships cat rows) :
    a.BoxNum = none ∧ a.Type' = "ship" := by
  simp only [_parse_ships, List.mem_filterMap] at h
  obtain ⟨row, -, hrow⟩ := h
  rcases row with _ | ⟨c0, _ | ⟨c1, _ | ⟨c2, rest⟩⟩⟩ <;> simp at hrow
  rw [← hrow]
  exact ⟨rfl, rfl⟩

theorem box_none_naval {cat : Catalog} {rows : List (List String)} {a : Address}
    (h : a ∈ _parse_naval_parties cat rows) :
    a.BoxNum = none ∧ a.Type' = "navalparty" := by
  simp only [_parse_naval_parties, List.mem_filterMap] at h
  obtain ⟨row, -, hrow⟩ := h
  rcases row with _ | ⟨c0, _ | ⟨c1, _ | ⟨c2, rest⟩⟩⟩ <;> simp at hrow
  rw [← hrow]
  exact ⟨rfl, rfl⟩

theorem box_none_operations {cat : Catalog} {rows : List (List String)} {a : Address}
    (h : a ∈ _parse_operations cat rows) :
    a.BoxNum = none ∧ a.Type' = "operation" := by
  simp only [_parse_operations, List.mem_filterMap] at h
  obtain ⟨row, -, hrow⟩ := h
  rcases row with _ | ⟨c0, _ | ⟨c1, _ | ⟨c2, rest⟩⟩⟩ <;> simp at hrow
  rw [← hrow]
  exact ⟨rfl, rfl⟩

theorem box_none_exercises {cat : Catalog} {rows : List (List String)} {a : Address}
    (h : a ∈ _parse_exercises cat rows) :
    a.BoxNum = none ∧ a.Type' = "exercise" := by
  simp only [_parse_exercises, List.mem_filterMap] at h
  obtain ⟨row, -, hrow⟩ := h
  rcases row with _ | ⟨c0, _ | ⟨c1, _ | ⟨c2, rest⟩⟩⟩ <;> simp at hrow
  rw [← hrow]
  exact ⟨rfl, rfl⟩

theorem box_none_fcdo {cat : Catalog} {cells : List (String × String × String)} {a : Address}
    (h : a ∈ parse_fcdo_ods cat cells) :
    a.BoxNum = none ∧ a.Type' = "fcdo" := by
  simp only [parse_fcdo_ods, List.mem_filterMap] at h
  obtain ⟨t, -, hrow⟩ := h
  simp only [fcdoRow] at hrow
  split at hrow
  · exact Option.noConfusion hrow
  · simp only [Option.some.injEq] at hrow
    rw [← hrow]
    exact ⟨rfl, rfl⟩

theorem detachment_fields {cat : Catalog} {rows : List (List String)} {a : Address}
    (h : a ∈ _parse_isolated_detachments cat rows) :
    a.Type' = "detachment" ∧ a.PstCd = some ISOLATED_DETACHMENT_POSTCODE ∧
      a.BfpoNum = "BFPO 105" := by
  simp only [_parse_isolated_detachments, List.mem_filterMap] at h
  obtain ⟨row, -, hrow⟩ := h
  rcases row with _ | ⟨c0, _ | ⟨c1, rest⟩⟩ <;> simp at hrow
  rw [← hrow]
  exact ⟨rfl, rfl, rfl⟩

/-- C7 (amended): across every parsing path, a record whose Type is not
detachment never carries a BoxNum, and every detachment record carries the
fixed detachment postcode and BfpoNum "BFPO 105"; a detachment row whose
box-number cell is non-empty yields a record carrying that cell as BoxNum,
but a detachment row with an empty box-number cell yields a detachment
record without a BoxNum field. -/
theorem boxnum_detachment_contract (cat : Catalog) (soup : Soup)
    (cells : List (String × String × String)) :
    (∀ a, a ∈ scrape_gov_uk_bfpo cat soup ++ parse_fcdo_ods cat cells →
      (a.Type' ≠ "detachment" → a.BoxNum = none) ∧
      (a.Type' = "detachment" →
        a.PstCd = some ISOLATED_DETACHMENT_POSTCODE ∧ a.BfpoNum = "BFPO 105")) ∧
    (∀ l b rest, b ≠ "" →
      _parse_isolated_detachments cat [l :: b :: rest] =
        [_add_address cat "105" l (some ISOLATED_DETACHMENT_POSTCODE) (some "Germany")
          "detachment" (some b)] ∧
      (_add_address cat "105" l (some ISOLATED_DETACHMENT_POSTCODE) (some "Germany")
        "detachment" (some b)).BoxNum = some b) := by
  constructor
  · intro a ha
    have hsplit :
        a ∈ scrape_gov_uk_bfpo cat soup ∨ a ∈ parse_fcdo_ods cat cells :=
      List.mem_append.mp ha
    have hgov :
        a ∈ scrape_gov_uk_bfpo cat soup →
          (a.BoxNum = none ∧ a.Type' ≠ "detachment") ∨
            (a.Type' = "detachment" ∧ a.PstCd = some ISOLATED_DETACHMENT_POSTCODE ∧
              a.BfpoNum = "BFPO 105") := by
      intro hg
      unfold scrape_gov_uk_bfpo at hg
      simp only [List.mem_append] at hg
      rcases hg with ((((((((hg | hg) | hg) | hg) | hg) | hg) | hg) | hg) | hg) <;>
        unfold sectionAddrs at hg
      · rcases hs : soup.germany with - | rows
        all_goals rw [hs] at hg
        · simp at hg
        · rcases box_none_germany hg with ⟨h1, h2⟩
          exact Or.inl ⟨h1, by rw [h2]; decide⟩
      · rcases hs : soup.uk with - | rows
        all_goals rw [hs] at hg
        · simp at hg
        · rcases box_none_uk hg with ⟨h1, h2⟩
          exact Or.inl ⟨h1, by rw [h2]; decide⟩
      · rcases hs : soup.europe with - | rows
        all_goals rw [hs] at hg
        · simp at hg
        · rcases box_none_europe hg with ⟨h1, h2⟩
          exact Or.inl ⟨h1, by rw [h2]; decide⟩
      · rcases hs : soup.world with - | rows
        all_goals rw [hs] at hg
        · simp at hg
        · rcases box_none_world hg with ⟨h1, h2⟩
          exact Or.inl ⟨h1, by rw [h2]; decide⟩
      · rcases hs : soup.ships with - | rows
        all_goals rw [hs] at hg
        · simp at hg
        · rcases box_none_ships hg with ⟨h1, h2⟩
          exact Or.inl ⟨h1, by rw [h2]; decide⟩
      · rcases hs : soup.naval with - | rows
        all_goals rw [hs] at hg
        · simp at hg
        · rcases box_none_naval hg with ⟨h1, h2⟩
          exact Or.inl ⟨h1, by rw [h2]; decide⟩
      · rcases hs : soup.operations with - | rows
        all_goals rw [hs] at hg
        · simp at hg
        · rcases box_none_operations hg with ⟨h1, h2⟩
          exact Or.inl ⟨h1, by rw [h2]; decide⟩
      · rcases hs : soup.exercises with - | rows
        all_goals rw [hs] at hg
        · simp at hg
        · rcases box_none_exercises hg with ⟨h1, h2⟩
          exact Or.inl ⟨h1, by rw [h2]; decide⟩
      · rcases hs : soup.detachments with - | rows
        all_goals rw [hs] at hg
        · simp at hg
        · exact Or.inr (detachment_fields hg)
    rcases hsplit with hg | hf
    · rcases hgov hg with ⟨h1, h2⟩ | ⟨h1, h2, h3⟩
      · exact ⟨fun _ => h1, fun ht => absurd ht h2⟩
      · exact ⟨fun ht => absurd h1 ht, fun _ => ⟨h2, h3⟩⟩
    · rcases box_none_fcdo hf with ⟨h1, h2⟩
      refine ⟨fun _ => h1, fun ht => ?_⟩
      rw [h2] at ht
      exact absurd ht (by decide)
  · intro l b rest hb
    constructor
    · rfl
    · show optNonEmpty (some b) = some b
      simp [optNonEmpty, hb]

/-- Witness for C7: a concrete non-empty detachment row carries its box
number, and a concrete ship record carries no BoxNum. -/
theorem boxnum_detachment_contract_witness :
    _parse_isolated_detachments sampleCatalog [["Example Det", "7"]] =
      [_add_address sampleCatalog "105" "Example Det" (some ISOLATED_DETACHMENT_POSTCODE)
        (some "Germany") "detachment" (some "7")] ∧
    (_add_address sampleCatalog "105" "Example Det" (some ISOLATED_DETACHMENT_POSTCODE)
      (some "Germany") "detachment" (some "7")).BoxNum = some "7" :=
  (boxnum_detachment_contract sampleCatalog emptySoup []).2 "Example Det" "7" []
    (by decide)

/-- C7 counterexample: a detachment row whose box-number cell is the empty
string produces a record with Type detachment and no BoxNum field, so not
every detachment record carries a BoxNum. -/
theorem boxnum_detachment_counterexample :
    _parse_isolated_detachments sampleCatalog [["Somewhere", ""]] =
      [Address.mk "BFPO 105" none "Somewhere" (some "BF1 0AX") (some "Germany") (some "DE")
        "detachment"] ∧
    (Address.mk "BFPO 105" none "Somewhere" (some "BF1 0AX") (some "Germany") (some "DE")
      "detachment").Type' = "detachment" ∧
    (Address.mk "BFPO 105" none "Somewhere" (some "BF1 0AX") (some "Germany") (some "DE")
      "detachment").BoxNum = none := by
  decide

/-! ## Claim C9 (confirmed, re-parser modelled from the spec) -/

theorem reparse_addrElem (a : Address) :
    nodeTriple (addrToElem a) = some (a.BfpoNum, a.Loc, a.Type') := by
  rcases a with ⟨n, box, loc, pst, ctry, code, ty⟩
  rcases box with - | b <;> rcases pst with - | p <;> rcases ctry with - | c <;>
    rcases code with - | k <;>
    first
      | rfl
      | (by_cases hk : k = "" <;> simp [addrToElem, nodeTriple, reparseElem, findTag, hk])

/-- C9: re-parsing the generated document (skipping the header comment and
reading each element's BfpoNum, Loc and Type child texts) reproduces
exactly the (BfpoNum, Loc, Type) triples of the sorted in-memory records,
in the same order. -/
theorem roundtrip_triples (today : String) (addrs : List Address) :
    reparseTriples (generate_xml today addrs) =
      (sortAddresses addrs).map (fun a => (a.BfpoNum, a.Loc, a.Type')) := by
  have h1 : reparseTriples (generate_xml today addrs) =
      List.filterMap nodeTriple ((sortAddresses addrs).map addrToElem) := rfl
  have h2 : (nodeTriple ∘ addrToElem) =
      some ∘ (fun a : Address => (a.BfpoNum, a.Loc, a.Type')) :=
    funext (fun a => reparse_addrElem a)
  rw [h1, List.filterMap_map, h2, List.filterMap_eq_map]

/-! ## Claim C10 (corrected) -/

/-- C10 (amended): every isolated-detachments row with at least two cells
produces one record with BfpoNum "BFPO 105", PstCd "BF1 0AX",
Ctry "Germany" and CtryCd "DE" (given that the ISO catalog resolves
"Germany" to "DE", as pycountry does), the row's first cell as Loc, and
the row's second cell as BoxNum when that cell is non-empty — an empty
second cell yields a record without a BoxNum field; rows with fewer than
two cells are skipped. -/
theorem detachment_row_contract (cat : Catalog)
    (hDE : cat.getByName "Germany" = some "DE") (l b : String) (rest : List String) :
    _parse_isolated_detachments cat [l :: b :: rest] =
      [Address.mk "BFPO 105" (if b = "" then none else some b) l (some "BF1 0AX")
        (some "Germany") (some "DE") "detachment"] ∧
    (∀ row : List String, row.length < 2 → _parse_isolated_detachments cat [row] = []) := by
  have h1 : get_country_code cat "Germany" =
      (match cat.getByName "Germany" with
       | some k => some k
       | none =>
         match cat.searchFuzzy "Germany" with
         | k :: _ => some k
         | [] => commonNameRetry cat "Germany") := rfl
  have hg : get_country_code cat "Germany" = some "DE" := by
    rw [h1, hDE]
  constructor
  · have h2 : _parse_isolated_detachments cat [l :: b :: rest] =
        [Address.mk "BFPO 105" (if b = "" then none else some b) l (some "BF1 0AX")
          (some "Germany") (optNonEmpty (get_country_code cat "Germany")) "detachment"] := rfl
    rw [h2, hg]
    rfl
  · intro row h
    rcases row with _ | ⟨c0, _ | ⟨c1, t⟩⟩
    · rfl
    · rfl
    · simp at h
      omega

/-- Witness for C10: a concrete two-cell row in the concrete catalog. -/
theorem detachment_row_contract_witness :
    _parse_isolated_detachments sampleCatalog [["Example Camp", "31"]] =
      [Address.mk "BFPO 105" (some "31") "Example Camp" (some "BF1 0AX") (some "Germany")
        (some "DE") "detachment"] ∧
    _parse_isolated_detachments sampleCatalog [["only-one-cell"]] = [] :=
  ⟨((detachment_row_contract sampleCatalog rfl "Example Camp" "31" []).1).trans (by decide),
   (detachment_row_contract sampleCatalog rfl "x" "y" []).2 ["only-one-cell"] (by decide)⟩

/-- C10 counterexample: a row whose second cell is the empty string does
not carry that cell as BoxNum — the produced record has no BoxNum field at
all, so the claim's "second cell as BoxNum" fails on such rows. -/
theorem detachment_row_counterexample :
    _parse_isolated_detachments sampleCatalog [["Det X", ""]] =
      [Address.mk "BFPO 105" none "Det X" (some "BF1 0AX") (some "Germany") (some "DE")
        "detachment"] ∧
    ((Address.mk "BFPO 105" none "Det X" (some "BF1 0AX") (some "Germany") (some "DE")
      "detachment").BoxNum == some "") = false := by
  decide

end BFPO
